import Mathlib

/-!
Shallow embedding of the estimate-app backend (Go) in Lean 4.

Float64 values are modelled as exact rationals (ℚ); Go structs become Lean
structures with the same field names, Go loops become structural recursion or
folds in the same order, and fallible repository lookups become `Option` /
`Except` values over list-modelled catalogs.
-/

namespace EstimateApp

/-- Embeds `COCOMOModel` (part_003): base coefficients of the effort equation. -/
structure COCOMOModel where
  ID : String
  Name : String
  A : ℚ
  B : ℚ
deriving DecidableEq, Repr

/-- Embeds `ScaleFactor` (part_003). -/
structure ScaleFactor where
  ID : String
  Name : String
  Rating : ℚ
  Weight : ℚ
deriving DecidableEq, Repr

/-- Embeds `CostDriver` (part_003). -/
structure CostDriver where
  ID : String
  Name : String
  Rating : ℚ
  Value : ℚ
deriving DecidableEq, Repr

/-- Embeds `COCOMOEstimate` (part_003), with its calculated fields. -/
structure COCOMOEstimate where
  ID : String
  ProjectSize : ℚ
  Model : COCOMOModel
  ScaleFactors : List ScaleFactor
  CostDrivers : List CostDriver
  ExponentB : ℚ := 0
  EffortPM : ℚ := 0
  DurationTM : ℚ := 0
  TeamSize : ℚ := 0
deriving DecidableEq, Repr

/-- Go's `int(q)` conversion on a float: truncation toward zero. -/
def truncToInt (q : ℚ) : ℤ :=
  if 0 ≤ q then ⌊q⌋ else -⌊-q⌋

/-- The repeated-multiplication loop body of the `pow` helper (part_003):
`result := 1.0; for i := 0; i < n; i++ { result *= base }`. -/
def powLoop (base : ℚ) : Nat → ℚ
  | 0 => 1
  | n + 1 => powLoop base n * base

/-- Embeds the helper `pow` (part_003 lines 117-123): the loop runs
`int(exp)` times (zero times when that integer is not positive). -/
def pow (base exp : ℚ) : ℚ :=
  powLoop base (truncToInt exp).toNat

/-- Embeds `COCOMOEstimate.CalculateEffort` (part_003 lines 90-114),
returning the struct with the four derived fields updated. -/
def CalculateEffort (e : COCOMOEstimate) : COCOMOEstimate :=
  let exponentB := e.ScaleFactors.foldl (fun acc sf => acc + sf.Weight * sf.Rating) e.Model.B
  let em := e.CostDrivers.foldl (fun acc cd => acc * cd.Value) 1
  let effortPM := e.Model.A * pow e.ProjectSize exponentB * em
  let c : ℚ := 3.67
  let d : ℚ := 0.28 + 0.2 * (exponentB - 1.01)
  let durationTM := c * pow effortPM d
  let teamSize := effortPM / durationTM
  { e with
    ExponentB := exponentB
    EffortPM := effortPM
    DurationTM := durationTM
    TeamSize := teamSize }

/-- Embeds `Factor` (factor.go): a named multiplier on hours. -/
structure Factor where
  ID : String
  Name : String
  Impact : ℚ
deriving DecidableEq, Repr

/-- Embeds `Factor.Apply` (factor.go lines 23-25). -/
def Factor.Apply (f : Factor) (hours : ℚ) : ℚ :=
  hours * f.Impact

/-- Embeds `Activity` (process.go). -/
structure Activity where
  ID : String
  Name : String
  BaseHours : ℚ
deriving DecidableEq, Repr

/-- Embeds `Process` (process.go). -/
structure Process where
  ID : String
  Name : String
  Activities : List Activity
deriving DecidableEq, Repr

/-- Embeds `Task` (task file in part_004): complexity is a Go `int`. -/
structure Task where
  ID : String
  ProcessID : String
  ActivityID : String
  Name : String
  Complexity : ℤ
  Scale : ℚ
  CustomFactors : List Factor
deriving DecidableEq, Repr

/-- Embeds `Task.CalculateBaseHours` (part_004 lines 312-321). -/
def Task.CalculateBaseHours (t : Task) (activity : Activity) : ℚ :=
  let baseHours := activity.BaseHours * t.Scale
  let complexityMultiplier : ℚ := 0.8 + ((t.Complexity : ℚ) * 0.2)
  baseHours * complexityMultiplier

/-- Embeds `ProcessEstimate` (estimate.go). -/
structure ProcessEstimate where
  Process : Process
  Tasks : List Task
  BaseHours : ℚ := 0
  TotalHours : ℚ := 0
deriving DecidableEq, Repr

/-- Embeds `Estimate` (estimate.go); the `*COCOMOEstimate` pointer becomes
`Option COCOMOEstimate`. -/
structure Estimate where
  ID : String
  ProjectID : String
  ProjectName : String
  ProcessEstimates : List ProcessEstimate
  GlobalFactors : List Factor
  COCOMOEstimate : Option COCOMOEstimate
  TotalHours : ℚ := 0
deriving DecidableEq, Repr

/-- Embeds `CalculationResult` (estimate.go). -/
structure CalculationResult where
  Method : String
  TotalHours : ℚ
  PersonMonths : ℚ
  TeamSize : ℚ
  DurationMonths : ℚ
  Confidence : ℚ
deriving DecidableEq, Repr

/-- The zero value a Go `var activity Activity` declaration produces. -/
def zeroActivity : Activity :=
  { ID := "", Name := "", BaseHours := 0 }

/-- `ProcessRepository.FindByID` modelled over a list catalog: first process
with the given id, a not-found condition otherwise. -/
def findProcessByID (repo : List Process) (id : String) : Option Process :=
  repo.find? (fun p => p.ID == id)

/-- The inner loop of `calculateActivityBased` (estimate.go lines 89-107) for
one task: resolve the activity by id (keeping the zero value when no activity
matches), compute base hours, then apply the task's custom factors in order. -/
def calcTaskHours (process : Process) (task : Task) : ℚ :=
  let activity := (process.Activities.find? (fun a => a.ID == task.ActivityID)).getD zeroActivity
  let baseHours := task.CalculateBaseHours activity
  task.CustomFactors.foldl (fun h f => f.Apply h) baseHours

/-- One iteration of the process loop of `calculateActivityBased`: resolves the
process, sums task hours into `BaseHours`, applies global factors into
`TotalHours`. -/
def calcProcessEstimate (repo : List Process) (globalFactors : List Factor)
    (pe : ProcessEstimate) : Option ProcessEstimate :=
  match findProcessByID repo pe.Process.ID with
  | none => none
  | some process =>
    let processBase := pe.Tasks.foldl (fun acc t => acc + calcTaskHours process t) 0
    let processTotal := globalFactors.foldl (fun acc f => f.Apply acc) processBase
    some { pe with BaseHours := processBase, TotalHours := processTotal }

/-- The process loop of `calculateActivityBased`, failing at the first process
lookup error exactly as the Go loop returns on the first `err`. -/
def calcProcessEstimates (repo : List Process) (globalFactors : List Factor) :
    List ProcessEstimate → Option (List ProcessEstimate)
  | [] => some []
  | pe :: rest =>
    match calcProcessEstimate repo globalFactors pe with
    | none => none
    | some pe' =>
      match calcProcessEstimates repo globalFactors rest with
      | none => none
      | some rest' => some (pe' :: rest')

/-- Embeds `Estimate.calculateActivityBased` (estimate.go lines 77-129):
returns the estimate with updated process estimates plus the
`CalculationResult`, or a not-found condition from a process lookup. -/
def calculateActivityBased (repo : List Process) (e : Estimate) :
    Option (Estimate × CalculationResult) :=
  match calcProcessEstimates repo e.GlobalFactors e.ProcessEstimates with
  | none => none
  | some pes =>
    let projectTotal := (pes.map ProcessEstimate.TotalHours).sum
    some ({ e with ProcessEstimates := pes },
      { Method := "activity_based"
        TotalHours := projectTotal
        PersonMonths := projectTotal / 160
        TeamSize := 5
        DurationMonths := (projectTotal / 160) / 5
        Confidence := 0.8 })

/-- Embeds `Estimate.calculateCOCOMOBased` (estimate.go lines 132-144): the
in-place `CalculateEffort` mutation becomes the returned updated estimate. -/
def calculateCOCOMOBased (ce : COCOMOEstimate) : COCOMOEstimate × CalculationResult :=
  let ce' := CalculateEffort ce
  (ce',
    { Method := "cocomo_based"
      TotalHours := ce'.EffortPM * 160
      PersonMonths := ce'.EffortPM
      TeamSize := ce'.TeamSize
      DurationMonths := ce'.DurationTM
      Confidence := 0.85 })

/-- Embeds `Estimate.reconcileEstimates` (estimate.go lines 147-162). -/
def reconcileEstimates (e : Estimate) (activityResult : CalculationResult)
    (cocomoResult : Option CalculationResult) : Estimate :=
  match cocomoResult with
  | none => { e with TotalHours := activityResult.TotalHours }
  | some cr =>
    let totalConfidence := activityResult.Confidence + cr.Confidence
    let activityWeight := activityResult.Confidence / totalConfidence
    let cocomoWeight := cr.Confidence / totalConfidence
    { e with TotalHours := activityResult.TotalHours * activityWeight +
        cr.TotalHours * cocomoWeight }

/-- Embeds `Estimate.CalculateTotalHours` (estimate.go lines 57-74). -/
def CalculateTotalHours (repo : List Process) (e : Estimate) : Option Estimate :=
  match calculateActivityBased repo e with
  | none => none
  | some (e1, activityResult) =>
    match e1.COCOMOEstimate with
    | none => some (reconcileEstimates e1 activityResult none)
    | some ce =>
      let (ce', cocomoResult) := calculateCOCOMOBased ce
      some (reconcileEstimates { e1 with COCOMOEstimate := some ce' }
        activityResult (some cocomoResult))

/-- The activity-based project total stored on an estimate: the sum of its
per-process `TotalHours` (the quantity `projectTotal` accumulates). -/
def activityTotal (e : Estimate) : ℚ :=
  (e.ProcessEstimates.map ProcessEstimate.TotalHours).sum

/-- The anonymous Optimistic/Nominal/Pessimistic range structs of
`COCOMODetailedResult` (part_004). -/
structure RangeONP where
  Optimistic : ℚ := 0
  Nominal : ℚ := 0
  Pessimistic : ℚ := 0
deriving DecidableEq, Repr

/-- The anonymous Minimum/Average/Maximum team-size range struct. -/
structure RangeMAM where
  Minimum : ℚ := 0
  Average : ℚ := 0
  Maximum : ℚ := 0
deriving DecidableEq, Repr

/-- The anonymous Minimum/Nominal/Maximum cost range struct. -/
structure CostRange where
  Minimum : ℚ := 0
  Nominal : ℚ := 0
  Maximum : ℚ := 0
deriving DecidableEq, Repr

/-- The anonymous cost-estimate struct of `COCOMODetailedResult`. -/
structure CostEstimate where
  HourlyRate : ℚ := 0
  TotalCost : ℚ := 0
  CostRange : CostRange := {}
deriving DecidableEq, Repr

/-- Embeds `PhaseEffort` (part_004). -/
structure PhaseEffort where
  Phase : String
  PercentEffort : ℚ
  Effort : ℚ
  Duration : ℚ
  AverageStaff : ℚ
deriving DecidableEq, Repr

/-- Embeds `FactorAnalysis` (part_004). -/
structure FactorAnalysis where
  Name : String
  Rating : ℚ
  Impact : ℚ
  Sensitivity : ℚ := 0
  Recommendation : String := ""
deriving DecidableEq, Repr

/-- Embeds `RiskFactor` (part_004). -/
structure RiskFactor where
  Category : String
  Name : String
  Level : String
  Impact : ℚ
  Description : String
  Mitigation : String
deriving DecidableEq, Repr

/-- Embeds `COCOMODetailedResult` (part_004). -/
structure COCOMODetailedResult where
  ProjectSize : ℚ
  ModelType : String
  BaseEffort : ℚ := 0
  AdjustedEffort : ℚ := 0
  EffortRange : RangeONP := {}
  Duration : ℚ := 0
  DurationRange : RangeONP := {}
  TeamSize : ℚ := 0
  TeamSizeRange : RangeMAM := {}
  CostEstimate : CostEstimate := {}
  PhaseDistribution : List PhaseEffort := []
  ScaleFactorAnalysis : List FactorAnalysis := []
  CostDriverAnalysis : List FactorAnalysis := []
  RiskLevel : String := ""
  RiskFactors : List RiskFactor := []
deriving DecidableEq, Repr

/-- Embeds `COCOMOEstimate.assessRiskLevel` (part_004 lines 221-243): the two
counting loops become filter lengths over the same lists. -/
def assessRiskLevel (e : COCOMOEstimate) : String :=
  let highRiskCount :=
    (e.ScaleFactors.filter (fun sf => 4 < sf.Rating)).length +
    (e.CostDrivers.filter (fun cd => 1.3 < cd.Value)).length
  if 3 ≤ highRiskCount then "High"
  else if 1 ≤ highRiskCount then "Medium"
  else "Low"

/-- Embeds `COCOMOEstimate.identifyRiskFactors` (part_004 lines 246-292): the
appends happen in scale-factor, cost-driver, project-size order. -/
def identifyRiskFactors (e : COCOMOEstimate) : List RiskFactor :=
  (e.ScaleFactors.filter (fun sf => 4 < sf.Rating)).map (fun sf =>
    { Category := "Process"
      Name := sf.Name
      Level := "High"
      Impact := sf.Weight * sf.Rating
      Description := "高いスケールファクター値による影響"
      Mitigation := "プロセスの改善とリスク軽減策の実施を検討" })
  ++ (e.CostDrivers.filter (fun cd => 1.3 < cd.Value)).map (fun cd =>
    { Category := "Technical"
      Name := cd.Name
      Level := "High"
      Impact := cd.Value
      Description := "高いコストドライバー値による影響"
      Mitigation := "技術的な対策と改善策の実施を検討" })
  ++ (if 100 < e.ProjectSize then
      [{ Category := "Technical"
         Name := "大規模プロジェクト"
         Level := "Medium"
         Impact := 1.3
         Description := "プロジェクト規模が大きいことによる複雑性の増加"
         Mitigation := "モジュール化とインクリメンタル開発の採用を検討" }]
    else [])

/-- One phase row of the fixed phase-distribution table (part_004). -/
def mkPhase (name : String) (pe pd : ℚ) (e : COCOMOEstimate) : PhaseEffort :=
  { Phase := name
    PercentEffort := pe
    Effort := e.EffortPM * pe
    Duration := e.DurationTM * pd
    AverageStaff := (e.EffortPM * pe) / (e.DurationTM * pd) }

/-- Embeds `COCOMOEstimate.GenerateDetailedResult` (part_004 lines 86-218). -/
def GenerateDetailedResult (e : COCOMOEstimate) (hourlyRate : ℚ) : COCOMODetailedResult :=
  let baseResult : COCOMODetailedResult :=
    { ProjectSize := e.ProjectSize
      ModelType := e.Model.Name
      BaseEffort := e.Model.A * pow e.ProjectSize e.Model.B
      AdjustedEffort := e.EffortPM
      EffortRange :=
        { Nominal := e.EffortPM
          Optimistic := e.EffortPM * 0.8
          Pessimistic := e.EffortPM * 1.2 }
      Duration := e.DurationTM
      DurationRange :=
        { Nominal := e.DurationTM
          Optimistic := e.DurationTM * 0.85
          Pessimistic := e.DurationTM * 1.15 }
      TeamSize := e.TeamSize
      TeamSizeRange :=
        { Average := e.TeamSize
          Minimum := e.TeamSize * 0.7
          Maximum := e.TeamSize * 1.3 } }
  let withCost :=
    if 0 < hourlyRate then
      let monthlyHours : ℚ := 160
      let totalCost := e.EffortPM * monthlyHours * hourlyRate
      { baseResult with
        CostEstimate :=
          { HourlyRate := hourlyRate
            TotalCost := totalCost
            CostRange :=
              { Nominal := totalCost
                Minimum := totalCost * 0.8
                Maximum := totalCost * 1.2 } } }
    else baseResult
  { withCost with
    PhaseDistribution :=
      [ mkPhase "要件定義・計画" 0.08 0.15 e
      , mkPhase "システム設計" 0.18 0.25 e
      , mkPhase "詳細設計" 0.25 0.35 e
      , mkPhase "実装・単体テスト" 0.26 0.45 e
      , mkPhase "結合テスト" 0.15 0.25 e
      , mkPhase "システムテスト" 0.08 0.15 e ]
    ScaleFactorAnalysis := e.ScaleFactors.map (fun sf =>
      { Name := sf.Name
        Rating := sf.Rating
        Impact := sf.Weight * sf.Rating
        Sensitivity := (sf.Weight * 0.5) / e.EffortPM
        Recommendation :=
          if 3.5 < sf.Rating then "この要因の改善により工数を削減できる可能性があります"
          else "" })
    CostDriverAnalysis := e.CostDrivers.map (fun cd =>
      { Name := cd.Name
        Rating := cd.Rating
        Impact := cd.Value
        Sensitivity := (cd.Value * 1.1 - cd.Value) / cd.Value
        Recommendation :=
          if 1.2 < cd.Value then "この要因の最適化により工数を削減できる可能性があります"
          else "" })
    RiskLevel := assessRiskLevel e
    RiskFactors := identifyRiskFactors e }

/-- The `COCOMORepository` read side (part_003 interface), modelled as list
catalogs; each `Find*ByID` is a first-match lookup that can fail. -/
structure COCOMOCatalog where
  models : List COCOMOModel
  scaleFactors : List ScaleFactor
  costDrivers : List CostDriver
  estimates : List COCOMOEstimate
deriving Repr

def findModelByID (cat : COCOMOCatalog) (id : String) : Option COCOMOModel :=
  cat.models.find? (fun m => m.ID == id)

def findScaleFactorByID (cat : COCOMOCatalog) (id : String) : Option ScaleFactor :=
  cat.scaleFactors.find? (fun sf => sf.ID == id)

def findCostDriverByID (cat : COCOMOCatalog) (id : String) : Option CostDriver :=
  cat.costDrivers.find? (fun cd => cd.ID == id)

def findEstimateByID (cat : COCOMOCatalog) (id : String) : Option COCOMOEstimate :=
  cat.estimates.find? (fun e => e.ID == id)

/-- Embeds `CreateEstimateInput` (cocomo_usecase.go); the Go `map[string]float64`
becomes an association list of (id, rating) pairs in some iteration order. -/
structure CreateEstimateInput where
  ModelID : String
  ProjectSize : ℚ
  ScaleFactors : List (String × ℚ)
  CostDrivers : List (String × ℚ)
deriving Repr

/-- The scale-factor resolution loop of `CreateEstimate`: each id is looked up
in the catalog and its rating overwritten; the first failed lookup aborts. -/
def resolveScaleFactors (cat : COCOMOCatalog) :
    List (String × ℚ) → Option (List ScaleFactor)
  | [] => some []
  | (id, rating) :: rest =>
    match findScaleFactorByID cat id with
    | none => none
    | some sf =>
      match resolveScaleFactors cat rest with
      | none => none
      | some rest' => some ({ sf with Rating := rating } :: rest')

/-- The cost-driver resolution loop of `CreateEstimate`. -/
def resolveCostDrivers (cat : COCOMOCatalog) :
    List (String × ℚ) → Option (List CostDriver)
  | [] => some []
  | (id, rating) :: rest =>
    match findCostDriverByID cat id with
    | none => none
    | some cd =>
      match resolveCostDrivers cat rest with
      | none => none
      | some rest' => some ({ cd with Rating := rating } :: rest')

/-- Embeds `COCOMOUseCase.CreateEstimate` (cocomo_usecase.go lines 179-230):
validation first, then model/scale-factor/cost-driver lookups, then
`CalculateEffort`; any failure aborts with no estimate. -/
def CreateEstimate (cat : COCOMOCatalog) (input : CreateEstimateInput) :
    Except String COCOMOEstimate :=
  if input.ProjectSize ≤ 0 then
    .error "project size must be greater than 0"
  else
    match findModelByID cat input.ModelID with
    | none => .error "model not found"
    | some model =>
      match resolveScaleFactors cat input.ScaleFactors with
      | none => .error "scale factor not found"
      | some sfs =>
        match resolveCostDrivers cat input.CostDrivers with
        | none => .error "cost driver not found"
        | some cds =>
          .ok (CalculateEffort
            { ID := ""
              ProjectSize := input.ProjectSize
              Model := model
              ScaleFactors := sfs
              CostDrivers := cds })

/-- Embeds `UpdateRatingsInput` (cocomo_usecase.go). -/
structure UpdateRatingsInput where
  EstimateID : String
  ScaleFactors : List (String × ℚ)
  CostDrivers : List (String × ℚ)
deriving Repr

/-- The inner loop of `UpdateRatings` for one scale-factor id: the first entry
whose `ID` matches gets the new rating (then `break`); no match changes
nothing. -/
def updateFirstSF (sfs : List ScaleFactor) (id : String) (rating : ℚ) :
    List ScaleFactor :=
  match sfs with
  | [] => []
  | sf :: rest =>
    if sf.ID == id then { sf with Rating := rating } :: rest
    else sf :: updateFirstSF rest id rating

/-- The inner loop of `UpdateRatings` for one cost-driver id. -/
def updateFirstCD (cds : List CostDriver) (id : String) (rating : ℚ) :
    List CostDriver :=
  match cds with
  | [] => []
  | cd :: rest =>
    if cd.ID == id then { cd with Rating := rating } :: rest
    else cd :: updateFirstCD rest id rating

/-- Embeds `COCOMOUseCase.UpdateRatings` (cocomo_usecase.go lines 245-280):
only the estimate lookup can fail; unknown factor ids are skipped and the
estimate is recalculated via `CalculateEffort`. -/
def UpdateRatings (cat : COCOMOCatalog) (input : UpdateRatingsInput) :
    Except String COCOMOEstimate :=
  match findEstimateByID cat input.EstimateID with
  | none => .error "estimate not found"
  | some est0 =>
    let est1 := { est0 with
      ScaleFactors :=
        input.ScaleFactors.foldl (fun l (p : String × ℚ) => updateFirstSF l p.1 p.2)
          est0.ScaleFactors }
    let est2 := { est1 with
      CostDrivers :=
        input.CostDrivers.foldl (fun l (p : String × ℚ) => updateFirstCD l p.1 p.2)
          est1.CostDrivers }
    .ok (CalculateEffort est2)

/-! ### Concrete inputs used by counterexamples and witnesses -/

/-- A model with `A = 1`, `B = 1/2`: its scale exponent is fractional. -/
def modelHalf : COCOMOModel :=
  { ID := "m1", Name := "M", A := 1, B := 1/2 }

/-- Failing input for the truncated-power defect: size 4, exponent 1/2. -/
def estC1 : COCOMOEstimate :=
  { ID := "e1", ProjectSize := 4, Model := modelHalf
    ScaleFactors := [], CostDrivers := [] }

/-- A process whose activity catalog holds the single activity `a1`. -/
def prC2 : Process :=
  { ID := "p1", Name := "P", Activities := [{ ID := "a1", Name := "A", BaseHours := 8 }] }

/-- A task referencing activity id `missing`, absent from `prC2`. -/
def taskC2 : Task :=
  { ID := "t1", ProcessID := "p1", ActivityID := "missing", Name := "T"
    Complexity := 3, Scale := 1, CustomFactors := [] }

/-- An estimate whose only task has a dangling activity reference. -/
def estC2 : Estimate :=
  { ID := "E1", ProjectID := "P1", ProjectName := "N"
    ProcessEstimates := [{ Process := prC2, Tasks := [taskC2] }]
    GlobalFactors := [], COCOMOEstimate := none }

/-! ### Witness fixtures -/

def sfW : ScaleFactor := { ID := "s1", Name := "PREC", Rating := 1, Weight := 1 }

def estW0 : COCOMOEstimate :=
  { ID := "est1", ProjectSize := 2, Model := modelHalf
    ScaleFactors := [sfW], CostDrivers := [] }

def catW : COCOMOCatalog :=
  { models := [modelHalf]
    scaleFactors := [sfW]
    costDrivers := [{ ID := "c1", Name := "RELY", Rating := 0, Value := 2 }]
    estimates := [estW0] }

def inputW : CreateEstimateInput :=
  { ModelID := "m1", ProjectSize := 2, ScaleFactors := [], CostDrivers := [] }

def estWc : COCOMOEstimate :=
  CalculateEffort
    { ID := "", ProjectSize := 2, Model := modelHalf
      ScaleFactors := [], CostDrivers := [] }

def inputUW : UpdateRatingsInput :=
  { EstimateID := "est1", ScaleFactors := [("s1", 2), ("nope", 3)], CostDrivers := [] }

def estWu : COCOMOEstimate :=
  CalculateEffort
    { estW0 with ScaleFactors := [{ ID := "s1", Name := "PREC", Rating := 2, Weight := 1 }] }

def estTW : Estimate :=
  { ID := "E", ProjectID := "P", ProjectName := "N"
    ProcessEstimates := [], GlobalFactors := []
    COCOMOEstimate := some estW0 }

def ceW : COCOMOEstimate := CalculateEffort estW0

def estTW' : Estimate :=
  reconcileEstimates { estTW with ProcessEstimates := [], COCOMOEstimate := some ceW }
    { Method := "activity_based", TotalHours := 0, PersonMonths := 0 / 160
      TeamSize := 5, DurationMonths := 0 / 160 / 5, Confidence := 0.8 }
    (some (calculateCOCOMOBased estW0).2)

def taskW : Task :=
  { ID := "t1", ProcessID := "p1", ActivityID := "a1", Name := "T"
    Complexity := 3, Scale := 2, CustomFactors := [] }

def actW : Activity := { ID := "a1", Name := "A", BaseHours := 10 }

def estN : Estimate :=
  { ID := "E2", ProjectID := "P", ProjectName := "N"
    ProcessEstimates := [], GlobalFactors := [], COCOMOEstimate := none }

def arN : CalculationResult :=
  { Method := "activity_based"
    TotalHours := (([] : List ProcessEstimate).map ProcessEstimate.TotalHours).sum
    PersonMonths := (([] : List ProcessEstimate).map ProcessEstimate.TotalHours).sum / 160
    TeamSize := 5
    DurationMonths := (([] : List ProcessEstimate).map ProcessEstimate.TotalHours).sum / 160 / 5
    Confidence := 0.8 }

def estN' : Estimate := reconcileEstimates { estN with ProcessEstimates := [] } arN none

/-- A computed estimate whose stored effort is 20 person-months
(the spec's cost example). -/
def e9w : COCOMOEstimate :=
  { ID := "e9", ProjectSize := 1, Model := modelHalf
    ScaleFactors := [], CostDrivers := [], EffortPM := 20 }

def inputNeg : CreateEstimateInput :=
  { ModelID := "m1", ProjectSize := -1, ScaleFactors := [], CostDrivers := [] }

def inputNoModel : CreateEstimateInput :=
  { ModelID := "zzz", ProjectSize := 2, ScaleFactors := [], CostDrivers := [] }

def inputBadSF : CreateEstimateInput :=
  { ModelID := "m1", ProjectSize := 2, ScaleFactors := [("zzz", 1)], CostDrivers := [] }

def inputBadCD : CreateEstimateInput :=
  { ModelID := "m1", ProjectSize := 2, ScaleFactors := [("s1", 1)]
    CostDrivers := [("zzz", 1)] }

/-! ### Helper lemmas -/

theorem powLoop_eq_pow (base : ℚ) (n : Nat) : powLoop base n = base ^ n := by
  induction n with
  | zero => rfl
  | succ n ih => simp [powLoop, ih, pow_succ]

theorem truncToInt_of_nonneg (q : ℚ) (h : 0 ≤ q) : truncToInt q = ⌊q⌋ := by
  simp [truncToInt, h]

theorem truncToInt_toNat_eq_zero_of_lt_one (q : ℚ) (h : q < 1) :
    (truncToInt q).toNat = 0 := by
  rcases le_or_lt 0 q with h0 | h0
  · have hlt : ⌊q⌋ < 1 := Int.floor_lt.mpr (by exact_mod_cast h)
    have : ⌊q⌋ ≤ 0 := by omega
    simp [truncToInt, h0, Int.toNat_of_nonpos this]
  · have hneg : ¬ (0 : ℚ) ≤ q := not_le.mpr h0
    have h1 : (0 : ℚ) ≤ -q := by linarith
    have h2 : (0 : ℤ) ≤ ⌊-q⌋ := Int.floor_nonneg.mpr h1
    have : -⌊-q⌋ ≤ 0 := by omega
    simp [truncToInt, hneg, Int.toNat_of_nonpos this]

theorem powLoop_zero_iff (base : ℚ) (n : Nat) :
    powLoop base n = 0 → base = 0 ∧ n ≠ 0 := by
  intro h
  cases n with
  | zero => simp [powLoop] at h
  | succ n =>
    rw [powLoop_eq_pow] at h
    refine ⟨?_, by omega⟩
    exact pow_eq_zero_iff (by omega) |>.mp h

/-- The Go quotient `p / (3.67 * pow p d)` times its divisor gives back `p`,
including the degenerate case where the divisor is zero (then `p = 0`). -/
theorem div_mul_duration (p : ℚ) (n : Nat) :
    p / ((3.67 : ℚ) * powLoop p n) * ((3.67 : ℚ) * powLoop p n) = p := by
  rcases eq_or_ne ((3.67 : ℚ) * powLoop p n) 0 with h | h
  · have hpl : powLoop p n = 0 := by
      rcases mul_eq_zero.mp h with h' | h'
      · norm_num at h'
      · exact h'
    have hp : p = 0 := (powLoop_zero_iff p n hpl).1
    simp [h, hp]
  · field_simp

theorem CalculateEffort_TeamSize_def (e : COCOMOEstimate) :
    (CalculateEffort e).TeamSize =
      (CalculateEffort e).EffortPM / (CalculateEffort e).DurationTM := rfl

theorem CalculateEffort_DurationTM_def (e : COCOMOEstimate) :
    (CalculateEffort e).DurationTM =
      (3.67 : ℚ) * powLoop (CalculateEffort e).EffortPM
        (truncToInt (0.28 + 0.2 * ((CalculateEffort e).ExponentB - 1.01))).toNat := rfl

/-- The derived-field invariant after `CalculateEffort`. -/
theorem calculateEffort_consistent (e : COCOMOEstimate) :
    (CalculateEffort e).TeamSize * (CalculateEffort e).DurationTM =
      (CalculateEffort e).EffortPM := by
  rw [CalculateEffort_TeamSize_def, CalculateEffort_DurationTM_def]
  exact div_mul_duration _ _

theorem reconcileEstimates_COCOMO (e : Estimate) (a : CalculationResult)
    (c : Option CalculationResult) :
    (reconcileEstimates e a c).COCOMOEstimate = e.COCOMOEstimate := by
  cases c <;> rfl

/-- Inversion for `CreateEstimate`: success means the result is
`CalculateEffort` of a fully resolved input. -/
theorem CreateEstimate_ok (cat : COCOMOCatalog) (input : CreateEstimateInput)
    (est : COCOMOEstimate) (h : CreateEstimate cat input = .ok est) :
    ∃ model sfs cds, est = CalculateEffort
      { ID := "", ProjectSize := input.ProjectSize, Model := model
        ScaleFactors := sfs, CostDrivers := cds } := by
  unfold CreateEstimate at h
  split at h
  · exact absurd h (by simp)
  · split at h
    · exact absurd h (by simp)
    · split at h
      · exact absurd h (by simp)
      · split at h
        · exact absurd h (by simp)
        · exact ⟨_, _, _, by cases h; rfl⟩

/-- Inversion for `UpdateRatings`: success means the result is
`CalculateEffort` of the found estimate with updated rating lists. -/
theorem UpdateRatings_ok (cat : COCOMOCatalog) (input : UpdateRatingsInput)
    (est : COCOMOEstimate) (h : UpdateRatings cat input = .ok est) :
    ∃ e0, est = CalculateEffort e0 := by
  unfold UpdateRatings at h
  split at h
  · exact absurd h (by simp)
  · exact ⟨_, by cases h; rfl⟩

/-- The activity-based project total stored on an estimate: the sum of its
per-process `TotalHours` (the quantity `projectTotal` accumulates). -/
theorem calculateActivityBased_inv (repo : List Process) (e : Estimate)
    (pair : Estimate × CalculationResult)
    (h : calculateActivityBased repo e = some pair) :
    pair.2.TotalHours = activityTotal pair.1 ∧
    pair.2.Confidence = 0.8 ∧
    pair.1.COCOMOEstimate = e.COCOMOEstimate := by
  unfold calculateActivityBased at h
  split at h
  · cases h
  · cases h
    exact ⟨rfl, rfl, rfl⟩

/-- The confidence-weighted mean of `a` (weight 0.8) and `p` (weight 0.85) is
a true weighted average. -/
theorem weighted_avg_bounds (a p r : ℚ)
    (hr : r = a * (0.8 / (0.8 + 0.85)) + p * (0.85 / (0.8 + 0.85))) :
    min a p ≤ r ∧ r ≤ max a p ∧
    (a ≠ p → min a p < r ∧ r < max a p) ∧
    (a = p → r = a) := by
  have hw1 : (0.8 : ℚ) / (0.8 + 0.85) = 16/33 := by norm_num
  have hw2 : (0.85 : ℚ) / (0.8 + 0.85) = 17/33 := by norm_num
  rw [hw1, hw2] at hr
  rcases le_total a p with hle | hle
  · rw [min_eq_left hle, max_eq_right hle]
    refine ⟨by rw [hr]; linarith, by rw [hr]; linarith, ?_, fun he => by rw [hr, he]; ring⟩
    intro hne
    have hlt : a < p := lt_of_le_of_ne hle hne
    exact ⟨by rw [hr]; linarith, by rw [hr]; linarith⟩
  · rw [min_eq_right hle, max_eq_left hle]
    refine ⟨by rw [hr]; linarith, by rw [hr]; linarith, ?_, fun he => by rw [hr, he]; ring⟩
    intro hne
    have hlt : p < a := lt_of_le_of_ne hle (Ne.symm hne)
    exact ⟨by rw [hr]; linarith, by rw [hr]; linarith⟩

/-- The reconciled total over any updated estimate and any parametric result
with the fixed confidences is a weighted average of the stored activity total
and `effortPM × 160`. -/
theorem C3_core (e2 : Estimate) (ar cr : CalculationResult) (ce : COCOMOEstimate)
    (hTot : ar.TotalHours = activityTotal e2)
    (hConf : ar.Confidence = 0.8)
    (hcrC : cr.Confidence = 0.85)
    (hcrT : cr.TotalHours = ce.EffortPM * 160) :
    (reconcileEstimates e2 ar (some cr)).TotalHours =
      activityTotal (reconcileEstimates e2 ar (some cr)) * (0.8 / (0.8 + 0.85)) +
        (ce.EffortPM * 160) * (0.85 / (0.8 + 0.85)) ∧
    min (activityTotal (reconcileEstimates e2 ar (some cr))) (ce.EffortPM * 160) ≤
      (reconcileEstimates e2 ar (some cr)).TotalHours ∧
    (reconcileEstimates e2 ar (some cr)).TotalHours ≤
      max (activityTotal (reconcileEstimates e2 ar (some cr))) (ce.EffortPM * 160) ∧
    (activityTotal (reconcileEstimates e2 ar (some cr)) ≠ ce.EffortPM * 160 →
      min (activityTotal (reconcileEstimates e2 ar (some cr))) (ce.EffortPM * 160) <
        (reconcileEstimates e2 ar (some cr)).TotalHours ∧
      (reconcileEstimates e2 ar (some cr)).TotalHours <
        max (activityTotal (reconcileEstimates e2 ar (some cr))) (ce.EffortPM * 160)) ∧
    (activityTotal (reconcileEstimates e2 ar (some cr)) = ce.EffortPM * 160 →
      (reconcileEstimates e2 ar (some cr)).TotalHours =
        activityTotal (reconcileEstimates e2 ar (some cr))) := by
  have hval : (reconcileEstimates e2 ar (some cr)).TotalHours =
      ar.TotalHours * (ar.Confidence / (ar.Confidence + cr.Confidence)) +
        cr.TotalHours * (cr.Confidence / (ar.Confidence + cr.Confidence)) := rfl
  have ha : activityTotal (reconcileEstimates e2 ar (some cr)) = activityTotal e2 := rfl
  have hrEq : (reconcileEstimates e2 ar (some cr)).TotalHours =
      activityTotal (reconcileEstimates e2 ar (some cr)) * (0.8 / (0.8 + 0.85)) +
        (ce.EffortPM * 160) * (0.85 / (0.8 + 0.85)) := by
    rw [hval, hConf, hcrC, hcrT, hTot, ha]
  have hb := weighted_avg_bounds (activityTotal (reconcileEstimates e2 ar (some cr)))
    (ce.EffortPM * 160) _ hrEq
  exact ⟨hrEq, hb.1, hb.2.1, hb.2.2.1, hb.2.2.2⟩

/-- C3: when `CalculateTotalHours` succeeds, `TotalHours` is the
confidence-weighted average (weights 0.8 and 0.85) of the activity-based
total and the parametric total `effortPM × 160` whenever a `COCOMOEstimate`
is present — hence always within `[min, max]`, strictly between when the two
differ, equal to both when they agree — and exactly the activity-based total
when no `COCOMOEstimate` is present. -/
theorem C3_reconciliation :
    ∀ repo e e', CalculateTotalHours repo e = some e' →
      (e'.COCOMOEstimate = none → e'.TotalHours = activityTotal e') ∧
      (∀ ce, e'.COCOMOEstimate = some ce →
        e'.TotalHours = activityTotal e' * (0.8 / (0.8 + 0.85)) +
          (ce.EffortPM * 160) * (0.85 / (0.8 + 0.85)) ∧
        min (activityTotal e') (ce.EffortPM * 160) ≤ e'.TotalHours ∧
        e'.TotalHours ≤ max (activityTotal e') (ce.EffortPM * 160) ∧
        (activityTotal e' ≠ ce.EffortPM * 160 →
          min (activityTotal e') (ce.EffortPM * 160) < e'.TotalHours ∧
          e'.TotalHours < max (activityTotal e') (ce.EffortPM * 160)) ∧
        (activityTotal e' = ce.EffortPM * 160 → e'.TotalHours = activityTotal e')) := by
  intro repo e e' h
  unfold CalculateTotalHours at h
  split at h
  · cases h
  · rename_i e1 ar heq
    obtain ⟨hTot, hConf, hCoco⟩ := calculateActivityBased_inv repo e (e1, ar) heq
    split at h
    · rename_i hnone
      cases h
      constructor
      · intro _
        show ar.TotalHours = _
        rw [hTot]
        rfl
      · intro ce hce
        rw [reconcileEstimates_COCOMO, hnone] at hce
        cases hce
    · rename_i ce0 hsome
      cases h
      constructor
      · intro hno
        rw [reconcileEstimates_COCOMO] at hno
        cases hno
      · intro ce hce
        rw [reconcileEstimates_COCOMO] at hce
        simp only [calculateCOCOMOBased] at hce
        cases hce
        exact C3_core _ ar _ (CalculateEffort ce0) hTot hConf rfl rfl


/-! ### Claim theorems -/

/-- C1: the claim states `CalculateEffort` computes
`effortPM = A × projectSize^exponentB × Π(costDriver.value)` with true
real-valued exponentiation of the fractional exponent. The code's `pow`
helper truncates the exponent, so on a model with `A = 1`, `B = 1/2`, project
size 4 and no factors the code yields `effortPM = 1` while the real-valued
formula `A × 4^(1/2) × 1` yields `2`. -/
theorem C1_effort_uses_truncated_power :
    (CalculateEffort estC1).ExponentB = 1/2 ∧
    (CalculateEffort estC1).EffortPM = 1 ∧
    ((estC1.Model.A : ℝ)) * ((estC1.ProjectSize : ℝ) ^ ((1 : ℝ)/2)) * 1 = 2 := by
  have hp : pow 4 (1/2 : ℚ) = 1 := by
    rw [pow, truncToInt_toNat_eq_zero_of_lt_one (1/2 : ℚ) (by norm_num)]
    rfl
  refine ⟨rfl, ?_, ?_⟩
  · show estC1.Model.A * pow estC1.ProjectSize _ * _ = 1
    simp [estC1, modelHalf]
    rw [show ((2⁻¹ : ℚ) = 1/2) by norm_num, hp]
  have h4 : (estC1.ProjectSize : ℝ) = 4 := by norm_num [estC1, modelHalf]
  have hA : (estC1.Model.A : ℝ) = 1 := by norm_num [estC1, modelHalf]
  rw [h4, hA, ← Real.sqrt_eq_rpow, show (4 : ℝ) = 2 ^ 2 by norm_num,
    Real.sqrt_sq (by norm_num : (0 : ℝ) ≤ 2)]
  norm_num

/-- C4: after `CalculateEffort` — and hence after every operation that
recomputes the derived fields (`CreateEstimate`, `UpdateRatings`,
`CalculateTotalHours`) — `teamSize = effortPM / durationMonths`, and
equivalently `teamSize × durationMonths = effortPM` (exactly, in the
rational model of float arithmetic). -/
theorem C4_parametric_invariant :
    (∀ e : COCOMOEstimate,
      (CalculateEffort e).TeamSize =
        (CalculateEffort e).EffortPM / (CalculateEffort e).DurationTM ∧
      (CalculateEffort e).TeamSize * (CalculateEffort e).DurationTM =
        (CalculateEffort e).EffortPM) ∧
    (∀ cat input est, CreateEstimate cat input = .ok est →
      est.TeamSize * est.DurationTM = est.EffortPM) ∧
    (∀ cat input est, UpdateRatings cat input = .ok est →
      est.TeamSize * est.DurationTM = est.EffortPM) ∧
    (∀ repo e e' ce, CalculateTotalHours repo e = some e' →
      e'.COCOMOEstimate = some ce →
      ce.TeamSize * ce.DurationTM = ce.EffortPM) := by
  refine ⟨fun e => ⟨rfl, calculateEffort_consistent e⟩, ?_, ?_, ?_⟩
  · intro cat input est h
    obtain ⟨m, sfs, cds, hest⟩ := CreateEstimate_ok cat input est h
    rw [hest]
    exact calculateEffort_consistent _
  · intro cat input est h
    obtain ⟨e0, hest⟩ := UpdateRatings_ok cat input est h
    rw [hest]
    exact calculateEffort_consistent _
  · intro repo e e' ce h hce
    unfold CalculateTotalHours at h
    split at h
    · exact absurd h (by simp)
    · rename_i pair heq
      split at h
      · rename_i hnone
        cases h
        rw [reconcileEstimates_COCOMO, hnone] at hce
        cases hce
      · rename_i ce0 hsome
        cases h
        rw [reconcileEstimates_COCOMO] at hce
        simp only [calculateCOCOMOBased] at hce
        cases hce
        exact calculateEffort_consistent _

/-- Witness for C4: concrete successful runs of `CreateEstimate`,
`UpdateRatings` and `CalculateTotalHours` satisfy the invariant. -/
theorem C4_parametric_invariant_witness :
    estWc.TeamSize * estWc.DurationTM = estWc.EffortPM ∧
    estWu.TeamSize * estWu.DurationTM = estWu.EffortPM ∧
    ceW.TeamSize * ceW.DurationTM = ceW.EffortPM :=
  ⟨C4_parametric_invariant.2.1 catW inputW estWc rfl,
   C4_parametric_invariant.2.2.1 catW inputUW estWu rfl,
   C4_parametric_invariant.2.2.2 [] estTW estTW' ceW rfl rfl⟩

/-- C5: `CalculateBaseHours` returns
`activity.baseHours × task.scale × (0.8 + 0.2 × complexity)`, and the
non-symmetric complexity mapping sends 1 ↦ 1.0, 3 ↦ 1.4, 5 ↦ 1.8. -/
theorem C5_base_hours_formula :
    ∀ (t : Task) (a : Activity),
      t.CalculateBaseHours a =
        a.BaseHours * t.Scale * (0.8 + 0.2 * (t.Complexity : ℚ)) ∧
      (t.Complexity = 1 → t.CalculateBaseHours a = a.BaseHours * t.Scale * 1) ∧
      (t.Complexity = 3 → t.CalculateBaseHours a = a.BaseHours * t.Scale * 1.4) ∧
      (t.Complexity = 5 → t.CalculateBaseHours a = a.BaseHours * t.Scale * 1.8) := by
  intro t a
  refine ⟨by unfold Task.CalculateBaseHours; ring, ?_, ?_, ?_⟩ <;>
    (intro h; unfold Task.CalculateBaseHours; rw [h]; push_cast; ring_nf)

/-- Witness for C5: a complexity-3 task over a 10-hour activity with scale 2
gets multiplier 1.4. -/
theorem C5_base_hours_formula_witness :
    taskW.Complexity = 3 ∧
    taskW.CalculateBaseHours actW = actW.BaseHours * taskW.Scale * 1.4 :=
  ⟨rfl, (C5_base_hours_formula taskW actW).2.2.1 rfl⟩

/-- C7: the `pow` helper performs repeated multiplication `int(exp)` times:
for `exp ≥ 0` it returns the integer power `base^⌊exp⌋`, for every `exp < 1`
(fractional or negative) it returns 1, and in particular `pow 2 (1/2) = 1`,
which differs from the real-valued power `2^(1/2) = √2`. -/
theorem C7_pow_truncates :
    (∀ base exp : ℚ, 0 ≤ exp → pow base exp = base ^ (⌊exp⌋).toNat) ∧
    (∀ base exp : ℚ, exp < 1 → pow base exp = 1) ∧
    pow 2 (1/2) = 1 ∧
    ((pow 2 (1/2) : ℚ) : ℝ) ≠ (2 : ℝ) ^ ((1 : ℝ)/2) := by
  have h2 : ∀ base exp : ℚ, exp < 1 → pow base exp = 1 := by
    intro base exp h
    rw [pow, truncToInt_toNat_eq_zero_of_lt_one exp h]
    rfl
  refine ⟨?_, h2, h2 2 (1/2) (by norm_num), ?_⟩
  · intro base exp h
    rw [pow, truncToInt_of_nonneg exp h, powLoop_eq_pow]
  · rw [h2 2 (1/2) (by norm_num), ← Real.sqrt_eq_rpow]
    push_cast
    intro heq
    have hsq := Real.sq_sqrt (show (0 : ℝ) ≤ 2 by norm_num)
    rw [← heq] at hsq
    norm_num at hsq

/-- Witness for C7: `pow 2 (7/3) = 2^2 = 4` and `pow 3 (-2) = 1`. -/
theorem C7_pow_truncates_witness :
    pow 2 (7/3) = 2 ^ ((⌊(7/3 : ℚ)⌋).toNat) ∧ pow 3 (-2) = 1 :=
  ⟨C7_pow_truncates.1 2 (7/3) (by norm_num),
   C7_pow_truncates.2.1 3 (-2) (by norm_num)⟩

/-- Witness for C3: without a parametric estimate the total equals the
activity total; with one present it is the weighted average. -/
theorem C3_reconciliation_witness :
    estN'.TotalHours = activityTotal estN' ∧
    estTW'.TotalHours = activityTotal estTW' * (0.8 / (0.8 + 0.85)) +
      (ceW.EffortPM * 160) * (0.85 / (0.8 + 0.85)) :=
  ⟨(C3_reconciliation [] estN estN' rfl).1 rfl,
   ((C3_reconciliation [] estTW estTW' rfl).2 ceW rfl).1⟩

/-- Applying the multiplicative custom factors to zero base hours yields
zero. -/
theorem foldl_apply_zero (fs : List Factor) :
    fs.foldl (fun h f => f.Apply h) 0 = 0 := by
  induction fs with
  | nil => rfl
  | cons f rest ih => simpa [Factor.Apply] using ih

/-- A task whose activity id matches nothing in the process resolves to the
zero-valued activity and contributes zero hours. -/
theorem calcTaskHours_of_missing (process : Process) (task : Task)
    (h : ∀ a ∈ process.Activities, a.ID ≠ task.ActivityID) :
    calcTaskHours process task = 0 := by
  have hfind : process.Activities.find? (fun a => a.ID == task.ActivityID) = none := by
    rw [List.find?_eq_none]
    intro a ha
    simp [h a ha]
  unfold calcTaskHours
  rw [hfind]
  show task.CustomFactors.foldl _ (Task.CalculateBaseHours task zeroActivity) = 0
  have hbase : Task.CalculateBaseHours task zeroActivity = 0 := by
    unfold Task.CalculateBaseHours zeroActivity
    ring
  rw [hbase]
  exact foldl_apply_zero task.CustomFactors

/-- The process loop succeeds as soon as every process id resolves; activity
resolution never fails it. -/
theorem calcProcessEstimates_isSome (repo : List Process) (gf : List Factor)
    (pes : List ProcessEstimate)
    (h : ∀ pe ∈ pes, (findProcessByID repo pe.Process.ID).isSome = true) :
    (calcProcessEstimates repo gf pes).isSome = true := by
  induction pes with
  | nil => rfl
  | cons pe rest ih =>
    have h1 := h pe (List.mem_cons_self pe rest)
    obtain ⟨process, hp⟩ := Option.isSome_iff_exists.mp h1
    have hrest := ih (fun q hq => h q (List.mem_cons_of_mem pe hq))
    obtain ⟨rest', hr⟩ := Option.isSome_iff_exists.mp hrest
    simp only [calcProcessEstimates, calcProcessEstimate, hp, hr]
    rfl

/-- C2 counterexample: on an estimate whose single task references an
activity id absent from its process, `calculateActivityBased` does NOT fail —
it succeeds and produces a zero-hour total for the unresolved task. -/
theorem C2_missing_activity_counterexample :
    (calculateActivityBased [prC2] estC2).isSome = true ∧
    (calculateActivityBased [prC2] estC2).map (fun r => r.2.TotalHours) = some 0 := by
  have htask : calcTaskHours prC2 taskC2 = 0 :=
    calcTaskHours_of_missing prC2 taskC2 (by decide)
  have hfound : findProcessByID [prC2] prC2.ID = some prC2 := by
    simp [findProcessByID]
  have hpe : calcProcessEstimate [prC2] ([] : List Factor)
      { Process := prC2, Tasks := [taskC2] } =
      some { Process := prC2, Tasks := [taskC2], BaseHours := 0, TotalHours := 0 } := by
    unfold calcProcessEstimate
    rw [hfound]
    simp only [List.foldl_cons, List.foldl_nil, zero_add, htask]
  have hpes : calcProcessEstimates [prC2] estC2.GlobalFactors estC2.ProcessEstimates =
      some [{ Process := prC2, Tasks := [taskC2], BaseHours := 0, TotalHours := 0 }] := by
    show calcProcessEstimates [prC2] ([] : List Factor)
        [{ Process := prC2, Tasks := [taskC2] }] = _
    unfold calcProcessEstimates
    rw [hpe]
    rfl
  have hall : calculateActivityBased [prC2] estC2 =
      some ({ estC2 with ProcessEstimates :=
          [{ Process := prC2, Tasks := [taskC2], BaseHours := 0, TotalHours := 0 }] },
        { Method := "activity_based", TotalHours := 0, PersonMonths := 0
          TeamSize := 5, DurationMonths := 0, Confidence := 0.8 }) := by
    unfold calculateActivityBased
    rw [hpes]
    simp
  rw [hall]
  exact ⟨rfl, rfl⟩

/-- C2 amended: each task's activity is resolved by id within its owning
process, but a dangling activity reference does not fail the calculation —
the zero-valued activity is used, the task contributes zero hours, and the
whole calculation succeeds whenever every process id resolves. -/
theorem C2_missing_activity_is_skipped :
    (∀ (repo : List Process) (e : Estimate),
      (∀ pe ∈ e.ProcessEstimates, (findProcessByID repo pe.Process.ID).isSome = true) →
      (calculateActivityBased repo e).isSome = true) ∧
    (∀ (process : Process) (task : Task),
      (∀ a ∈ process.Activities, a.ID ≠ task.ActivityID) →
      calcTaskHours process task = 0) := by
  constructor
  · intro repo e h
    unfold calculateActivityBased
    have := calcProcessEstimates_isSome repo e.GlobalFactors e.ProcessEstimates h
    obtain ⟨pes, hp⟩ := Option.isSome_iff_exists.mp this
    rw [hp]
    rfl
  · exact calcTaskHours_of_missing

/-- Witness for C2's amended claim at the concrete dangling-reference
estimate. -/
theorem C2_missing_activity_is_skipped_witness :
    (calculateActivityBased [prC2] estC2).isSome = true ∧
    calcTaskHours prC2 taskC2 = 0 :=
  ⟨C2_missing_activity_is_skipped.1 [prC2] estC2 (by decide),
   C2_missing_activity_is_skipped.2 prC2 taskC2 (by decide)⟩

/-- An unknown scale-factor id anywhere in the input fails the resolution
loop. -/
theorem resolveScaleFactors_none (cat : COCOMOCatalog) (l : List (String × ℚ))
    (id : String) (rating : ℚ) (hmem : (id, rating) ∈ l)
    (hfind : findScaleFactorByID cat id = none) :
    resolveScaleFactors cat l = none := by
  induction l with
  | nil => cases hmem
  | cons p rest ih =>
    rcases List.mem_cons.mp hmem with heq | hmem'
    · cases heq
      unfold resolveScaleFactors
      rw [hfind]
    · unfold resolveScaleFactors
      obtain ⟨pid, prating⟩ := p
      cases hf : findScaleFactorByID cat pid with
      | none => rfl
      | some sf => rw [ih hmem']

/-- An unknown cost-driver id anywhere in the input fails the resolution
loop. -/
theorem resolveCostDrivers_none (cat : COCOMOCatalog) (l : List (String × ℚ))
    (id : String) (rating : ℚ) (hmem : (id, rating) ∈ l)
    (hfind : findCostDriverByID cat id = none) :
    resolveCostDrivers cat l = none := by
  induction l with
  | nil => cases hmem
  | cons p rest ih =>
    rcases List.mem_cons.mp hmem with heq | hmem'
    · cases heq
      unfold resolveCostDrivers
      rw [hfind]
    · unfold resolveCostDrivers
      obtain ⟨pid, prating⟩ := p
      cases hf : findCostDriverByID cat pid with
      | none => rfl
      | some cd => rw [ih hmem']

/-- C6: `CreateEstimate` rejects `projectSize ≤ 0` before any computation,
and a model, scale-factor, or cost-driver id missing from the catalog fails
the whole operation: no estimate is ever returned (all-or-nothing). -/
theorem C6_create_estimate_all_or_nothing :
    (∀ cat input, input.ProjectSize ≤ 0 →
      CreateEstimate cat input = .error "project size must be greater than 0") ∧
    (∀ cat input, findModelByID cat input.ModelID = none →
      ∀ est, CreateEstimate cat input ≠ .ok est) ∧
    (∀ cat input id rating, (id, rating) ∈ input.ScaleFactors →
      findScaleFactorByID cat id = none →
      ∀ est, CreateEstimate cat input ≠ .ok est) ∧
    (∀ cat input id rating, (id, rating) ∈ input.CostDrivers →
      findCostDriverByID cat id = none →
      ∀ est, CreateEstimate cat input ≠ .ok est) := by
  refine ⟨?_, ?_, ?_, ?_⟩
  · intro cat input h
    unfold CreateEstimate
    rw [if_pos h]
  · intro cat input hm est
    unfold CreateEstimate
    split
    · simp
    · rw [hm]
      simp
  · intro cat input id rating hmem hfind est
    unfold CreateEstimate
    split
    · simp
    · cases hm : findModelByID cat input.ModelID with
      | none => simp
      | some model =>
        rw [resolveScaleFactors_none cat input.ScaleFactors id rating hmem hfind]
        simp
  · intro cat input id rating hmem hfind est
    unfold CreateEstimate
    split
    · simp
    · cases hm : findModelByID cat input.ModelID with
      | none => simp
      | some model =>
        cases hs : resolveScaleFactors cat input.ScaleFactors with
        | none => simp
        | some sfs =>
          rw [resolveCostDrivers_none cat input.CostDrivers id rating hmem hfind]
          simp

/-- Witness for C6 at concrete bad inputs over the witness catalog. -/
theorem C6_create_estimate_all_or_nothing_witness :
    CreateEstimate catW inputNeg = .error "project size must be greater than 0" ∧
    CreateEstimate catW inputNoModel ≠ .ok estWc ∧
    CreateEstimate catW inputBadSF ≠ .ok estWc ∧
    CreateEstimate catW inputBadCD ≠ .ok estWc :=
  ⟨C6_create_estimate_all_or_nothing.1 catW inputNeg (by norm_num [inputNeg]),
   C6_create_estimate_all_or_nothing.2.1 catW inputNoModel rfl estWc,
   C6_create_estimate_all_or_nothing.2.2.1 catW inputBadSF "zzz" 1
     (by simp [inputBadSF]) rfl estWc,
   C6_create_estimate_all_or_nothing.2.2.2 catW inputBadCD "zzz" 1
     (by simp [inputBadCD]) rfl estWc⟩

/-- C9: `GenerateDetailedResult` produces the effort range ±20%, duration
range ±15%, team-size range −30%/+30%, and — only when `hourlyRate > 0` —
`totalCost = effortPM × 160 × hourlyRate` with a ±20% cost range. -/
theorem C9_detailed_ranges :
    ∀ (e : COCOMOEstimate) (rate : ℚ), 0 ≤ rate →
      (GenerateDetailedResult e rate).EffortRange.Optimistic = 0.8 * e.EffortPM ∧
      (GenerateDetailedResult e rate).EffortRange.Pessimistic = 1.2 * e.EffortPM ∧
      (GenerateDetailedResult e rate).DurationRange.Optimistic = 0.85 * e.DurationTM ∧
      (GenerateDetailedResult e rate).DurationRange.Pessimistic = 1.15 * e.DurationTM ∧
      (GenerateDetailedResult e rate).TeamSizeRange.Minimum = 0.7 * e.TeamSize ∧
      (GenerateDetailedResult e rate).TeamSizeRange.Maximum = 1.3 * e.TeamSize ∧
      (0 < rate →
        (GenerateDetailedResult e rate).CostEstimate.TotalCost =
          e.EffortPM * 160 * rate ∧
        (GenerateDetailedResult e rate).CostEstimate.CostRange.Minimum =
          0.8 * (e.EffortPM * 160 * rate) ∧
        (GenerateDetailedResult e rate).CostEstimate.CostRange.Maximum =
          1.2 * (e.EffortPM * 160 * rate)) := by
  intro e rate _
  by_cases hrate : 0 < rate
  · simp only [GenerateDetailedResult, if_pos hrate]
    refine ⟨by ring, by ring, by ring, by ring, by ring, by ring,
      fun _ => ⟨by trivial, by ring, by ring⟩⟩
  · simp only [GenerateDetailedResult, if_neg hrate]
    exact ⟨by ring, by ring, by ring, by ring, by ring, by ring, fun hr => absurd hr hrate⟩

/-- Witness for C9: the spec's cost example — `hourlyRate = 5000`,
`effortPM = 20` gives total cost 16,000,000 with range
[12,800,000, 19,200,000]. -/
theorem C9_detailed_ranges_witness :
    (GenerateDetailedResult e9w 5000).CostEstimate.TotalCost = 16000000 ∧
    (GenerateDetailedResult e9w 5000).CostEstimate.CostRange.Minimum = 12800000 ∧
    (GenerateDetailedResult e9w 5000).CostEstimate.CostRange.Maximum = 19200000 := by
  obtain ⟨-, -, -, -, -, -, hc⟩ := C9_detailed_ranges e9w 5000 (by norm_num)
  obtain ⟨h1, h2, h3⟩ := hc (by norm_num)
  have he : e9w.EffortPM = 20 := rfl
  rw [he] at h1 h2 h3
  refine ⟨?_, ?_, ?_⟩
  · rw [h1]; norm_num
  · rw [h2]; norm_num
  · rw [h3]; norm_num

/-- Scale-factor entries without a matching id are left unchanged. -/
theorem updateFirstSF_of_no_match (sfs : List ScaleFactor) (id : String) (rating : ℚ)
    (h : ∀ sf ∈ sfs, sf.ID ≠ id) :
    updateFirstSF sfs id rating = sfs := by
  induction sfs with
  | nil => rfl
  | cons sf rest ih =>
    unfold updateFirstSF
    have hne : (sf.ID == id) = false := by
      simpa using h sf (List.mem_cons_self sf rest)
    rw [hne]
    simp only [Bool.false_eq_true, if_false]
    rw [ih (fun q hq => h q (List.mem_cons_of_mem sf hq))]

/-- Cost-driver entries without a matching id are left unchanged. -/
theorem updateFirstCD_of_no_match (cds : List CostDriver) (id : String) (rating : ℚ)
    (h : ∀ cd ∈ cds, cd.ID ≠ id) :
    updateFirstCD cds id rating = cds := by
  induction cds with
  | nil => rfl
  | cons cd rest ih =>
    unfold updateFirstCD
    have hne : (cd.ID == id) = false := by
      simpa using h cd (List.mem_cons_self cd rest)
    rw [hne]
    simp only [Bool.false_eq_true, if_false]
    rw [ih (fun q hq => h q (List.mem_cons_of_mem cd hq))]

/-- C10: `UpdateRatings` never fails because of an unknown factor id — once
the estimate itself is found it always returns the recalculated estimate;
ids matching no entry leave the lists untouched, while a matching entry has
its rating replaced. -/
theorem C10_update_ratings_lenient :
    (∀ cat input est0, findEstimateByID cat input.EstimateID = some est0 →
      UpdateRatings cat input = .ok (CalculateEffort
        { est0 with
          ScaleFactors := input.ScaleFactors.foldl
            (fun l (p : String × ℚ) => updateFirstSF l p.1 p.2) est0.ScaleFactors
          CostDrivers := input.CostDrivers.foldl
            (fun l (p : String × ℚ) => updateFirstCD l p.1 p.2) est0.CostDrivers })) ∧
    (∀ sfs id rating, (∀ sf ∈ sfs, sf.ID ≠ id) →
      updateFirstSF sfs id rating = sfs) ∧
    (∀ cds id rating, (∀ cd ∈ cds, cd.ID ≠ id) →
      updateFirstCD cds id rating = cds) ∧
    (∀ sf rest rating, updateFirstSF (sf :: rest) sf.ID rating =
      { sf with Rating := rating } :: rest) ∧
    (∀ cd rest rating, updateFirstCD (cd :: rest) cd.ID rating =
      { cd with Rating := rating } :: rest) := by
  refine ⟨?_, updateFirstSF_of_no_match, updateFirstCD_of_no_match, ?_, ?_⟩
  · intro cat input est0 h
    unfold UpdateRatings
    rw [h]
  · intro sf rest rating
    unfold updateFirstSF
    simp
  · intro cd rest rating
    unfold updateFirstCD
    simp

/-- Witness for C10: updating over the witness catalog with one matching and
one unknown scale-factor id succeeds, and the unknown id is a no-op. -/
theorem C10_update_ratings_lenient_witness :
    UpdateRatings catW inputUW = .ok (CalculateEffort
      { estW0 with
        ScaleFactors := inputUW.ScaleFactors.foldl
          (fun l (p : String × ℚ) => updateFirstSF l p.1 p.2) estW0.ScaleFactors
        CostDrivers := inputUW.CostDrivers.foldl
          (fun l (p : String × ℚ) => updateFirstCD l p.1 p.2) estW0.CostDrivers }) ∧
    updateFirstSF [sfW] "zzz" 9 = [sfW] :=
  ⟨C10_update_ratings_lenient.1 catW inputUW estW0 rfl,
   C10_update_ratings_lenient.2.1 [sfW] "zzz" 9 (by decide)⟩

/-- Counting the emitted risk factors: one Process/High entry per scale
factor rated above 4, one Technical/High entry per cost driver valued above
1.3, and one Medium entry exactly when the project size exceeds 100. -/
theorem identifyRiskFactors_counts (e : COCOMOEstimate) :
    ((identifyRiskFactors e).filter
        (fun rf => rf.Category == "Process" && rf.Level == "High")).length =
      (e.ScaleFactors.filter (fun sf => 4 < sf.Rating)).length ∧
    ((identifyRiskFactors e).filter
        (fun rf => rf.Category == "Technical" && rf.Level == "High")).length =
      (e.CostDrivers.filter (fun cd => 1.3 < cd.Value)).length ∧
    ((identifyRiskFactors e).filter (fun rf => rf.Level == "Medium")).length =
      (if 100 < e.ProjectSize then 1 else 0) ∧
    (identifyRiskFactors e).length =
      (e.ScaleFactors.filter (fun sf => 4 < sf.Rating)).length +
      (e.CostDrivers.filter (fun cd => 1.3 < cd.Value)).length +
      (if 100 < e.ProjectSize then 1 else 0) := by
  unfold identifyRiskFactors
  by_cases hps : 100 < e.ProjectSize
  · simp [hps, List.filter_append, List.filter_map, Function.comp]
    omega
  · simp [hps, List.filter_append, List.filter_map, Function.comp]

/-- C8: `GenerateDetailedResult` classifies `RiskLevel` from the count of
scale factors rated above 4 plus cost drivers valued above 1.3 (≥3 High,
≥1 Medium, else Low), emits one High risk factor per qualifying factor with
category Process (scale factors) or Technical (cost drivers), and one
Medium large-project factor exactly when `projectSize > 100`. -/
theorem C8_risk_assessment :
    ∀ (e : COCOMOEstimate) (rate : ℚ),
      (GenerateDetailedResult e rate).RiskLevel =
        (if 3 ≤ (e.ScaleFactors.filter (fun sf => 4 < sf.Rating)).length +
            (e.CostDrivers.filter (fun cd => 1.3 < cd.Value)).length then "High"
         else if 1 ≤ (e.ScaleFactors.filter (fun sf => 4 < sf.Rating)).length +
            (e.CostDrivers.filter (fun cd => 1.3 < cd.Value)).length then "Medium"
         else "Low") ∧
      ((GenerateDetailedResult e rate).RiskFactors.filter
          (fun rf => rf.Category == "Process" && rf.Level == "High")).length =
        (e.ScaleFactors.filter (fun sf => 4 < sf.Rating)).length ∧
      ((GenerateDetailedResult e rate).RiskFactors.filter
          (fun rf => rf.Category == "Technical" && rf.Level == "High")).length =
        (e.CostDrivers.filter (fun cd => 1.3 < cd.Value)).length ∧
      ((GenerateDetailedResult e rate).RiskFactors.filter
          (fun rf => rf.Level == "Medium")).length =
        (if 100 < e.ProjectSize then 1 else 0) ∧
      (GenerateDetailedResult e rate).RiskFactors.length =
        (e.ScaleFactors.filter (fun sf => 4 < sf.Rating)).length +
        (e.CostDrivers.filter (fun cd => 1.3 < cd.Value)).length +
        (if 100 < e.ProjectSize then 1 else 0) := by
  intro e rate
  have h := identifyRiskFactors_counts e
  exact ⟨rfl, h.1, h.2.1, h.2.2.1, h.2.2.2⟩

end EstimateApp
